import Mathlib

/-!
Verification of the generation-pipeline orchestrator of the openOii backend.

The Lean definitions below are shallow embeddings of the Python source under
`backend/app`: database rows become structures, SQL statements become list
transformations, the Redis checkpoint store becomes an explicit key list, and
external collaborators (the Anthropic/Doubao HTTP clients, `json.loads`, the
filesystem) become explicit parameters so that the surrounding control flow of
the repository's own code can be proved about.
-/

set_option maxRecDepth 10000

namespace OpenOii

/-! ## Data model: AgentRun rows (app/models/agent_run.py) -/

/-- One persisted `AgentRun` row, restricted to the fields the verified
properties touch. `progress` is a rational standing for the Python float. -/
structure AgentRunRec where
  id : Nat
  projectId : Nat
  status : String
  currentAgent : Option String
  progress : ℚ
  error : Option String
  deriving DecidableEq, Repr

instance : Inhabited AgentRunRec :=
  ⟨{ id := 0, projectId := 0, status := "", currentAgent := none,
     progress := 0, error := none }⟩

/-- Active statuses per the RunState lifecycle: `queued` or `running`. -/
def isActive (r : AgentRunRec) : Bool :=
  r.status == "queued" || r.status == "running"

/-- Number of active runs recorded for a given project scope. -/
def countActive (runs : List AgentRunRec) (pid : Nat) : Nat :=
  (runs.filter (fun r => r.projectId == pid && isActive r)).length

/-! ## Admission routes (app/api/v1/routes/generation.py) -/

/-- Embedding of the admission part of `generate_project`
(generation.py lines 25-81): 404 when the project row is missing, otherwise a
fresh `AgentRun(status="running", current_agent="orchestrator", progress=0.0)`
is inserted unconditionally and the row is returned with 201.  The route
performs no check for an already-active run.  The error value is the HTTP
status code raised. -/
def generate_project (projectExists : Bool) (runs : List AgentRunRec)
    (pid newId : Nat) : Except Nat (List AgentRunRec × AgentRunRec) :=
  if projectExists then
    let run : AgentRunRec :=
      { id := newId, projectId := pid, status := "running",
        currentAgent := some "orchestrator", progress := 0, error := none }
    .ok (runs ++ [run], run)
  else .error 404

/-- Embedding of the admission part of `feedback_project`
(generation.py lines 125-187): 404 when the project row is missing, otherwise a
fresh `AgentRun(status="queued", current_agent="review", progress=0.0)` is
inserted unconditionally and 202 returned with its id.  As in
`generate_project`, no already-active-run check is made. -/
def feedback_project (projectExists : Bool) (runs : List AgentRunRec)
    (pid newId : Nat) : Except Nat (List AgentRunRec × Nat) :=
  if projectExists then
    let run : AgentRunRec :=
      { id := newId, projectId := pid, status := "queued",
        currentAgent := some "review", progress := 0, error := none }
    .ok (runs ++ [run], newId)
  else .error 404

/-! ## Startup sweep (app/db/session.py, init_db) -/

/-- Embedding of the stale-run sweep in `init_db` (session.py lines 92-97):
`UPDATE agent_run SET status='cancelled', error='Service restarted'
WHERE status IN ('queued','running')`, applied row by row. -/
def sweepStaleRuns (runs : List AgentRunRec) : List AgentRunRec :=
  runs.map fun r =>
    if isActive r then
      { r with status := "cancelled", error := some "Service restarted" }
    else r

/-! ## Cross-process checkpoint channel (app/agents/orchestrator.py)

The Redis store is modeled as the list of currently-set keys.  `SET` is
idempotent on presence, `DEL` removes the key.  A broadcast published while no
waiter is subscribed is lost, which the wait model expresses by letting each
poll iteration of a waiter observe its own environment. -/

/-- Durable-flag key derived from the run id (`get_confirm_event_key`). -/
def confirmKey (runId : Nat) : String :=
  "openoii:confirm:" ++ toString runId

/-- Redis `SET key value`: the key becomes present (value and TTL elided). -/
def redisSet (flags : List String) (k : String) : List String :=
  if k ∈ flags then flags else k :: flags

/-- Redis `DEL key`: the key becomes absent. -/
def redisDel (flags : List String) (k : String) : List String :=
  flags.filter (fun x => x ≠ k)

/-- Embedding of `trigger_confirm_redis` (orchestrator.py lines 113-118): set
the durable flag, publish a broadcast (delivered only to already-subscribed
waiters), return True. -/
def trigger_confirm_redis (flags : List String) (runId : Nat) :
    List String × Bool :=
  (redisSet flags (confirmKey runId), true)

/-- What one iteration of the wait loop observes: whether `pubsub.get_message`
delivers a broadcast during the iteration, and whether a concurrent trigger
sets the durable flag during the iteration. -/
structure WaitIter where
  msg : Bool
  flagSet : Bool

/-- Poll loop of `wait_for_confirm_redis` (orchestrator.py lines 135-153).
Time is counted in whole seconds of remaining budget; a quiet iteration
consumes its full `min(1.0, remaining)` poll timeout.  On a delivered
broadcast, or on finding the durable flag at the fallback re-check, the flag
is deleted and True returned; an exhausted deadline returns False. -/
def waitLoop (runId : Nat) (env : Nat → WaitIter) :
    (remaining : Nat) → (k : Nat) → (flags : List String) → Bool × List String
  | 0, _, flags => (false, flags)
  | remaining + 1, k, flags =>
    let flags1 := if (env k).flagSet then redisSet flags (confirmKey runId)
                  else flags
    if (env k).msg then (true, redisDel flags1 (confirmKey runId))
    else if confirmKey runId ∈ flags1 then
      (true, redisDel flags1 (confirmKey runId))
    else waitLoop runId env remaining (k + 1) flags1

/-- Embedding of `wait_for_confirm_redis` (orchestrator.py lines 121-158):
subscribe, consume an already-set durable flag immediately, otherwise poll
until the deadline.  The result is (returned boolean, Redis state after). -/
def wait_for_confirm_redis (flags : List String) (runId : Nat) (timeout : Nat)
    (env : Nat → WaitIter) : Bool × List String :=
  if confirmKey runId ∈ flags then (true, redisDel flags (confirmKey runId))
  else waitLoop runId env timeout 0 flags

/-! ## Shared retrying call wrapper (app/services/llm.py)

The outbound client call is an external collaborator; its k-th invocation is
modeled by `outcomes k`. -/

/-- Exceptions `LLMService._is_retryable_error` distinguishes: the three
retryable Anthropic SDK types (rate limit, connection error, timeout), any
exception carrying an HTTP `status_code` attribute, and everything else. -/
inductive LlmExc where
  | rateLimitError
  | apiConnectionError
  | apiTimeoutError
  | statusError (statusCode : Nat)
  | otherError
  deriving DecidableEq, Repr

/-- Embedding of `LLMService._is_retryable_error` (llm.py lines 99-113):
retryable when the exception is one of the three SDK transport/ratelimit
types or carries a status code in the fixed retryable set. -/
def is_retryable_error : LlmExc → Bool
  | .rateLimitError => true
  | .apiConnectionError => true
  | .apiTimeoutError => true
  | .statusError s =>
      s == 408 || s == 429 || s == 500 || s == 502 || s == 503 || s == 504
  | .otherError => false

/-- Exceptions `DoubaoLLMService._is_retryable_error` distinguishes (httpx). -/
inductive HttpxExc where
  | timeoutException
  | httpStatusError (statusCode : Nat)
  | otherError
  deriving DecidableEq, Repr

/-- Embedding of `DoubaoLLMService._is_retryable_error`
(llm.py lines 305-312): httpx timeouts and the same fixed status set. -/
def doubao_is_retryable_error : HttpxExc → Bool
  | .timeoutException => true
  | .httpStatusError s =>
      s == 408 || s == 429 || s == 500 || s == 502 || s == 503 || s == 504
  | .otherError => false

/-- Retry loop of `LLMService.generate` / `DoubaoLLMService.generate`
(llm.py lines 146-161 and 348-366), entered at attempt index `attempt` with
the current sleep delay (seconds, as a rational) and `remaining` retries left
(`remaining = max_retries - attempt`, so `attempt >= max_retries` is
`remaining = 0`).  `outcomes k` is the result of the k-th call to the
external client.  On success the parsed response is returned; on a failure
that is the last allowed attempt or not retryable the exception propagates;
otherwise the loop sleeps `delay`, doubles it capping at 8.0, and retries.
Returns (propagated result, attempts made, list of sleeps). -/
def retryAttempts (retryable : ε → Bool) (outcomes : Nat → Except ε α) :
    (remaining : Nat) → (attempt : Nat) → (delay : ℚ) →
      Except ε α × Nat × List ℚ
  | 0, attempt, _ =>
    match outcomes attempt with
    | .ok v => (.ok v, attempt + 1, [])
    | .error e => (.error e, attempt + 1, [])
  | r + 1, attempt, delay =>
    match outcomes attempt with
    | .ok v => (.ok v, attempt + 1, [])
    | .error e =>
      if retryable e = false then (.error e, attempt + 1, [])
      else
        let rest := retryAttempts retryable outcomes r (attempt + 1)
          (min (delay * 2) 8)
        (rest.1, rest.2.1, delay :: rest.2.2)

/-- Embedding of the whole `generate` retry discipline: attempt 0 with
`max_retries` retries left and the initial 0.5 second delay. -/
def llm_generate (retryable : ε → Bool) (maxRetries : Nat)
    (outcomes : Nat → Except ε α) : Except ε α × Nat × List ℚ :=
  retryAttempts retryable outcomes maxRetries 0 (1 / 2)

/-- The sleep-delay sequence: start at `d`, double each step, cap at 8. -/
def doubleCap (d : ℚ) : Nat → ℚ
  | 0 => d
  | j + 1 => min (doubleCap d j * 2) 8

/-- Result-shape discriminator used to state batch/retry properties. -/
def exceptIsOk : Except ε α → Bool
  | .ok _ => true
  | .error _ => false

/-! ## Batched storyboard stage (app/agents/storyboard_artist.py) -/

/-- A `Shot` row as the storyboard stage sees it. -/
structure BatchShot where
  id : Nat
  order : Nat
  imageUrl : Option String
  deriving DecidableEq, Repr

/-- Pending-shot query of `StoryboardArtistAgent.run` (storyboard_artist.py
lines 71-82): shots of the project with no first-frame image yet, optionally
narrowed to the active target ids.  The `ORDER BY shot.order` of the query
only fixes iteration order and is kept abstract in the list ordering. -/
def selectPendingShots (shots : List BatchShot)
    (targetIds : Option (List Nat)) : List BatchShot :=
  shots.filter fun s =>
    s.imageUrl == none &&
    match targetIds with
    | some ids => ids.contains s.id
    | none => true

/-- Per-shot production loop of `StoryboardArtistAgent.run`
(storyboard_artist.py lines 96-143).  `outcome i` is what the i-th image
generation call produces: an asset URL, or the exception it raises (already
past the client's own retries).  A success populates the shot's asset and
commits it; an exception is caught, counted, logged, rolled back and the loop
continues with the next shot.  Returns the final rows and the
(updated_count, failed_count) pair the completion message reports. -/
def storyboardBatchLoop (outcome : Nat → Except String String) :
    (pending : List BatchShot) → (i : Nat) → List BatchShot × Nat × Nat
  | [], _ => ([], 0, 0)
  | shot :: rest, i =>
    match outcome i with
    | .ok url =>
      let r := storyboardBatchLoop outcome rest (i + 1)
      ({ shot with imageUrl := some url } :: r.1, r.2.1 + 1, r.2.2)
    | .error _ =>
      let r := storyboardBatchLoop outcome rest (i + 1)
      (shot :: r.1, r.2.1, r.2.2 + 1)

/-- Embedding of the batched stage body: query then loop. -/
def storyboard_artist_run (shots : List BatchShot)
    (targetIds : Option (List Nat)) (outcome : Nat → Except String String) :
    List BatchShot × Nat × Nat :=
  storyboardBatchLoop outcome (selectPendingShots shots targetIds) 0

/-! ## Project artifacts and asset files (app/models/project.py,
app/services/file_cleaner.py, orchestrator cleanup helpers) -/

/-- A `Character` row with its generated reference image. -/
structure CharacterRow where
  id : Nat
  projectId : Nat
  imageUrl : Option String
  deriving DecidableEq, Repr

/-- A `Scene` row (only the linkage matters to cleanup). -/
structure SceneRow where
  id : Nat
  projectId : Nat
  deriving DecidableEq, Repr

/-- A `Shot` row with its generated first-frame image and video clip. -/
structure ShotRow where
  id : Nat
  sceneId : Nat
  imageUrl : Option String
  videoUrl : Option String
  deriving DecidableEq, Repr

/-- A `Project` row with its merged final video. -/
structure ProjectRow where
  id : Nat
  videoUrl : Option String
  deriving DecidableEq, Repr

/-- The tables the cleanup logic touches. -/
structure Db where
  projects : List ProjectRow
  characters : List CharacterRow
  scenes : List SceneRow
  shots : List ShotRow
  deriving DecidableEq, Repr

/-- Local filesystem model: the set of existing file paths, plus which
`os.remove` calls succeed (`false` is the OSError case). -/
structure Fs where
  files : List String
  removeOk : String → Bool

/-- `is_local_file` (file_cleaner.py lines 19-24): a non-empty URL under
`/static/`. -/
def is_local_file : Option String → Bool
  | none => false
  | some u => !(u == "") && u.toList.take 8 == "/static/".toList

/-- `get_local_path` (file_cleaner.py lines 27-33).  Python's
`url.lstrip("/static/")` drops leading characters drawn from the character
set of `"/static/"` (not the literal word), and the remainder is joined
under the static directory, rendered here as the `STATIC_DIR/` path root. -/
def get_local_path (u : String) : Option String :=
  if is_local_file (some u) then
    some ("STATIC_DIR/" ++ String.mk (u.toList.dropWhile (· ∈ "/static/".toList)))
  else none

/-- `delete_file` (file_cleaner.py lines 36-63): returns False without
touching anything for a falsy URL, a non-local URL, and an absent file;
removes the file and returns True when `os.remove` succeeds; logs the
OSError and returns False when it raises.  In every case it returns rather
than propagating an exception. -/
def delete_file (fs : Fs) (url : Option String) : Fs × Bool :=
  match url with
  | none => (fs, false)
  | some u =>
    if u == "" then (fs, false)
    else
      match get_local_path u with
      | none => (fs, false)
      | some p =>
        if p ∈ fs.files then
          if fs.removeOk p then
            ({ fs with files := fs.files.filter (fun q => q ≠ p) }, true)
          else (fs, false)
        else (fs, false)

/-- `delete_files` (file_cleaner.py lines 66-79): best-effort bulk delete,
counting the successfully removed files. -/
def delete_files (fs : Fs) (urls : List (Option String)) : Fs × Nat :=
  urls.foldl
    (fun acc url =>
      let r := delete_file acc.1 url
      (r.1, acc.2 + (if r.2 then 1 else 0)))
    (fs, 0)

/-- Scene-id subquery `select(Scene.id).where(Scene.project_id == pid)` used
by the shot cleanup helpers. -/
def projectSceneIds (db : Db) (pid : Nat) : List Nat :=
  (db.scenes.filter (fun sc => sc.projectId == pid)).map (fun sc => sc.id)

/-- `_delete_project_shots` (orchestrator.py lines 184-186): bulk `DELETE`
of the project's shot rows.  No asset file is touched. -/
def delete_project_shots (db : Db) (pid : Nat) : Db :=
  { db with shots :=
      db.shots.filter (fun s => !((projectSceneIds db pid).contains s.sceneId)) }

/-- `_delete_project_scenes` (orchestrator.py lines 188-189). -/
def delete_project_scenes (db : Db) (pid : Nat) : Db :=
  { db with scenes := db.scenes.filter (fun sc => !(sc.projectId == pid)) }

/-- `_delete_project_characters` (orchestrator.py lines 191-192). -/
def delete_project_characters (db : Db) (pid : Nat) : Db :=
  { db with characters := db.characters.filter (fun c => !(c.projectId == pid)) }

/-- `_clear_character_images` (orchestrator.py lines 194-205): purge the
image files of every character of the project, then null the URLs. -/
def clear_character_images (fs : Fs) (db : Db) (pid : Nat) : Fs × Db :=
  let chars := db.characters.filter (fun c => c.projectId == pid)
  let fs1 := (delete_files fs (chars.map (fun c => c.imageUrl))).1
  (fs1,
   { db with characters := db.characters.map fun c =>
       if c.projectId == pid then { c with imageUrl := none } else c })

/-- The shot query shared by `_clear_shot_images` / `_clear_shot_videos`. -/
def projectShots (db : Db) (pid : Nat) : List ShotRow :=
  db.shots.filter (fun s => (projectSceneIds db pid).contains s.sceneId)

/-- `_clear_shot_images` (orchestrator.py lines 207-217): purge the
first-frame image files of every shot of the project, then null the URLs. -/
def clear_shot_images (fs : Fs) (db : Db) (pid : Nat) : Fs × Db :=
  let fs1 := (delete_files fs ((projectShots db pid).map (fun s => s.imageUrl))).1
  (fs1,
   { db with shots := db.shots.map fun s =>
       if (projectSceneIds db pid).contains s.sceneId then
         { s with imageUrl := none }
       else s })

/-- `_clear_shot_videos` (orchestrator.py lines 219-229). -/
def clear_shot_videos (fs : Fs) (db : Db) (pid : Nat) : Fs × Db :=
  let fs1 := (delete_files fs ((projectShots db pid).map (fun s => s.videoUrl))).1
  (fs1,
   { db with shots := db.shots.map fun s =>
       if (projectSceneIds db pid).contains s.sceneId then
         { s with videoUrl := none }
       else s })

/-- `_clear_project_video` (orchestrator.py lines 231-240). -/
def clear_project_video (fs : Fs) (db : Db) (pid : Nat) : Fs × Db :=
  match db.projects.find? (fun p => p.id == pid) with
  | none => (fs, db)
  | some proj =>
    let fs1 := (delete_file fs proj.videoUrl).1
    (fs1,
     { db with projects := db.projects.map fun p =>
         if p.id == pid then { p with videoUrl := none } else p })

/-- `_cleanup_for_rerun` (orchestrator.py lines 242-308).  The returned Bool
records whether the `data_cleared` notification would be sent (full
structural mode only); the `.error` case is the raised `ValueError` for an
unsupported start agent.  Note the incremental branches take no preserve-set
or target-id input: the function's only parameters are the project, the
start agent and the mode, exactly as in the source. -/
def cleanup_for_rerun (fs : Fs) (db : Db) (pid : Nat) (startAgent : String)
    (mode : String) : Except String (Fs × Db × Bool) :=
  if mode == "incremental" then
    if startAgent == "onboarding" || startAgent == "director" ||
        startAgent == "scriptwriter" then
      let r1 := clear_character_images fs db pid
      let r2 := clear_shot_images r1.1 r1.2 pid
      let r3 := clear_shot_videos r2.1 r2.2 pid
      let r4 := clear_project_video r3.1 r3.2 pid
      .ok (r4.1, r4.2, false)
    else if startAgent == "character_artist" then
      let r1 := clear_character_images fs db pid
      let r2 := clear_shot_images r1.1 r1.2 pid
      let r3 := clear_shot_videos r2.1 r2.2 pid
      let r4 := clear_project_video r3.1 r3.2 pid
      .ok (r4.1, r4.2, false)
    else if startAgent == "storyboard_artist" then
      let r2 := clear_shot_images fs db pid
      let r3 := clear_shot_videos r2.1 r2.2 pid
      let r4 := clear_project_video r3.1 r3.2 pid
      .ok (r4.1, r4.2, false)
    else if startAgent == "video_generator" then
      let r3 := clear_shot_videos fs db pid
      let r4 := clear_project_video r3.1 r3.2 pid
      .ok (r4.1, r4.2, false)
    else if startAgent == "video_merger" then
      let r4 := clear_project_video fs db pid
      .ok (r4.1, r4.2, false)
    else .error ("Unsupported start_agent for cleanup: " ++ startAgent)
  else
    if startAgent == "onboarding" || startAgent == "director" ||
        startAgent == "scriptwriter" then
      let d1 := delete_project_shots db pid
      let d2 := delete_project_scenes d1 pid
      let d3 := delete_project_characters d2 pid
      let r4 := clear_project_video fs d3 pid
      .ok (r4.1, r4.2, true)
    else if startAgent == "character_artist" then
      let r1 := clear_character_images fs db pid
      let r2 := clear_shot_images r1.1 r1.2 pid
      let r3 := clear_shot_videos r2.1 r2.2 pid
      let r4 := clear_project_video r3.1 r3.2 pid
      .ok (r4.1, r4.2, false)
    else if startAgent == "storyboard_artist" then
      let r2 := clear_shot_images fs db pid
      let r3 := clear_shot_videos r2.1 r2.2 pid
      let r4 := clear_project_video r3.1 r3.2 pid
      .ok (r4.1, r4.2, false)
    else if startAgent == "video_generator" then
      let r3 := clear_shot_videos fs db pid
      let r4 := clear_project_video r3.1 r3.2 pid
      .ok (r4.1, r4.2, false)
    else if startAgent == "video_merger" then
      let r4 := clear_project_video fs db pid
      .ok (r4.1, r4.2, false)
    else .error ("Unsupported start_agent for cleanup: " ++ startAgent)

/-- Projection: shot rows of a cleanup result (none on a raised error). -/
def cleanupShots (r : Except String (Fs × Db × Bool)) : Option (List ShotRow) :=
  match r with
  | .ok (_, db, _) => some db.shots
  | .error _ => none

/-- Projection: surviving files of a cleanup result. -/
def cleanupFiles (r : Except String (Fs × Db × Bool)) : Option (List String) :=
  match r with
  | .ok (fs, _, _) => some fs.files
  | .error _ => none

/-- Fixture for the re-plan scenarios: project 1 with one scene and shots
1, 2, 3, each holding a populated first-frame image asset that exists on
disk (Scenario B's existing artifacts). -/
def scenarioDb : Db :=
  { projects := [⟨1, none⟩],
    characters := [],
    scenes := [⟨10, 1⟩],
    shots := [⟨1, 10, some "/static/frames/f1.png", none⟩,
              ⟨2, 10, some "/static/frames/f2.png", none⟩,
              ⟨3, 10, some "/static/frames/f3.png", none⟩] }

/-- Filesystem fixture matching `scenarioDb`: all three frame files exist
and removal succeeds. -/
def scenarioFs : Fs :=
  { files := ["STATIC_DIR/frames/f1.png", "STATIC_DIR/frames/f2.png",
              "STATIC_DIR/frames/f3.png"],
    removeOk := fun _ => true }

/-! ## Stage sequencing trace (app/agents/orchestrator.py, run_from_agent) -/

/-- Ordered agent list built in `GenerationOrchestrator.__init__`
(orchestrator.py lines 167-176). -/
def AGENTS : List String :=
  ["onboarding", "director", "scriptwriter", "character_artist",
   "storyboard_artist", "video_generator", "video_merger", "review"]

/-- `_agent_index` (orchestrator.py lines 178-182); `none` models the raised
ValueError for an unknown agent name. -/
def agent_index (name : String) : Option Nat :=
  AGENTS.findIdx? (fun a => a == name)

/-- Remaining-stage plan of `run_from_agent` (orchestrator.py lines
513-514): the agents from the start index on, excluding `review`. -/
def planFrom (name : String) : List String :=
  match agent_index name with
  | some i => (AGENTS.drop i).filter (fun a => !(a == "review"))
  | none => []

/-- The `(current_agent, progress)` pairs written by `_set_run` inside the
stage loop of `run_from_agent` (orchestrator.py lines 516-612).  Stage `i`
of the current plan writes `(plan[i], i / max(len(plan), 1))` (lines
542-543).  A feedback decision `(n, a)` - feedback text supplied at the
checkpoint after stage `n` and classified by the review agent into the
already-validated start agent `a` - is possible only when stage `n` is not
the last one (line 565); it rebuilds the plan from `a` and resets the
cursor to 0 (lines 606-608).  `fbs` lists the successive feedback
decisions; once exhausted, every later checkpoint confirms without
feedback. -/
def stageEvents : (plan : List String) → (fbs : List (Nat × String)) →
    List (String × ℚ)
  | plan, [] =>
    (List.range plan.length).map fun i =>
      (plan.getD i "", (i : ℚ) / ((max plan.length 1 : Nat) : ℚ))
  | plan, (n, a) :: rest =>
    if n + 1 < plan.length then
      ((List.range (n + 1)).map fun i =>
        (plan.getD i "", (i : ℚ) / ((max plan.length 1 : Nat) : ℚ))) ++
        stageEvents (planFrom a) rest
    else
      (List.range plan.length).map fun i =>
        (plan.getD i "", (i : ℚ) / ((max plan.length 1 : Nat) : ℚ))

/-- Full `(current_agent, progress)` write trace of a non-review
`run_from_agent` call: the initial `("orchestrator", 0.01)` write
(orchestrator.py lines 419-421) followed by the stage-loop writes. -/
def runTrace (startAgent : String) (fbs : List (Nat × String)) :
    List (String × ℚ) :=
  ("orchestrator", 1 / 100) :: stageEvents (planFrom startAgent) fbs

/-! ## JSON extraction utility (app/agents/utils.py)

Text is handled as character lists; `json.loads` is the Python standard
library, modeled as the parameter `parse`. -/

/-- JSON values as far as `extract_json` distinguishes them: `json.loads`
may yield an object (a Python dict) or any other JSON value. -/
inductive PyJson where
  | obj (fields : List (String × PyJson))
  | arr (items : List PyJson)
  | str (s : String)
  | num (n : Int)
  | boolean (b : Bool)
  | null

/-- Opening curly brace, by code point. -/
def braceOpenChar : Char := Char.ofNat 123

/-- Closing curly brace, by code point. -/
def braceCloseChar : Char := Char.ofNat 125

/-- Backquote, by code point. -/
def backquoteChar : Char := Char.ofNat 96

/-- Python `str.strip()` whitespace classification. -/
def isPyWs (c : Char) : Bool :=
  c = ' ' || c = '\t' || c = '\n' || c = '\r' ||
    c = Char.ofNat 11 || c = Char.ofNat 12

/-- Python `text.strip()`. -/
def pyStrip (s : List Char) : List Char :=
  ((s.dropWhile isPyWs).reverse.dropWhile isPyWs).reverse

/-- Python `text.split("\n")`. -/
def splitOnNl : List Char → List (List Char)
  | [] => [[]]
  | c :: rest =>
    let r := splitOnNl rest
    if c = '\n' then [] :: r
    else
      match r with
      | [] => [[c]]
      | h :: t => (c :: h) :: t

/-- Python `"\n".join(lines)`. -/
def joinNl : List (List Char) → List Char
  | [] => []
  | [l] => l
  | l :: l2 :: rest => l ++ '\n' :: joinNl (l2 :: rest)

/-- Python `s.startswith(p)`. -/
def listBeginsWith (p s : List Char) : Bool := s.take p.length == p

/-- The three-backquote markdown fence marker. -/
def fenceChars : List Char := [backquoteChar, backquoteChar, backquoteChar]

/-- Code-fence removal of `extract_json` (utils.py lines 19-27): drop the
first line when it opens with a fence, drop the last line when it equals a
fence after stripping, re-join and strip. -/
def stripCodeFence (text : List Char) : List Char :=
  let lines := splitOnNl text
  let lines1 :=
    match lines with
    | [] => []
    | l0 :: rest => if listBeginsWith fenceChars l0 then rest else l0 :: rest
  let lines2 :=
    if !lines1.isEmpty && pyStrip (lines1.getLastD []) == fenceChars then
      lines1.dropLast
    else lines1
  pyStrip (joinNl lines2)

/-- Python `text.find(c)`, with -1 rendered as `none`. -/
def pyFindChar (c : Char) (s : List Char) : Option Nat :=
  s.findIdx? (fun x => x = c)

/-- Python `text.rfind(c)`, with -1 rendered as `none`. -/
def pyRFindChar (c : Char) (s : List Char) : Option Nat :=
  match s.reverse.findIdx? (fun x => x = c) with
  | none => none
  | some i => some (s.length - 1 - i)

/-- Scanner state of `_try_fix_incomplete_json` (utils.py lines 106-133). -/
structure BracketScan where
  openBraces : Int
  openBrackets : Int
  inString : Bool
  escNext : Bool

/-- One character step of the `_try_fix_incomplete_json` scanner. -/
def bracketScanStep (st : BracketScan) (c : Char) : BracketScan :=
  if st.escNext then { st with escNext := false }
  else if c = '\\' then { st with escNext := true }
  else if c = '"' then { st with inString := !st.inString }
  else if st.inString then st
  else if c = braceOpenChar then { st with openBraces := st.openBraces + 1 }
  else if c = braceCloseChar then { st with openBraces := st.openBraces - 1 }
  else if c = '[' then { st with openBrackets := st.openBrackets + 1 }
  else if c = ']' then { st with openBrackets := st.openBrackets - 1 }
  else st

/-- `_try_fix_incomplete_json` (utils.py lines 106-143): close an
unterminated string, then balance brackets and braces (Python's `']' * n`
is empty for a non-positive count, matching `Int.toNat`). -/
def try_fix_incomplete_json (text : List Char) : List Char :=
  let st := text.foldl bracketScanStep ⟨0, 0, false, false⟩
  let t1 := if st.inString then text ++ ['"'] else text
  (t1 ++ List.replicate st.openBrackets.toNat ']') ++
    List.replicate st.openBraces.toNat braceCloseChar

/-- The `isinstance(data, dict)` filter applied to every parse result of
`extract_json`: a successful parse of a non-dict falls through exactly like
a parse failure. -/
def keepDict : Option PyJson → Option PyJson
  | some (.obj fields) => some (.obj fields)
  | _ => none

/-- Pre-processing of `extract_json` (utils.py lines 16-27): strip, then
remove a markdown code fence when present. -/
def extractBase (text : List Char) : List Char :=
  let t0 := pyStrip text
  if listBeginsWith fenceChars t0 then stripCodeFence t0 else t0

/-- The slice `text[start : end+1]` (or `text[start:]` when `}` is missing
or precedes `start`) of `extract_json` (utils.py lines 42-47). -/
def extractJsonSlice (t1 : List Char) (start : Nat) : List Char :=
  match pyRFindChar braceCloseChar t1 with
  | none => t1.drop start
  | some e => if e ≤ start then t1.drop start else (t1.take (e + 1)).drop start

/-- Embedding of `extract_json` (utils.py lines 14-65).  `parse` stands for
`json.loads` (`none` covers both a raised JSONDecodeError and nothing else);
`fixCommon` stands for the pure regex repair `_fix_common_json_errors`
(utils.py lines 68-103), whose textual output no verified property depends
on.  `.ok` is the returned dict, `.error` the raised ValueError. -/
def extract_json (parse : List Char → Option PyJson)
    (fixCommon : List Char → List Char) (text : List Char) :
    Except String PyJson :=
  let t1 := extractBase text
  match keepDict (parse t1) with
  | some v => .ok v
  | none =>
    match pyFindChar braceOpenChar t1 with
    | none => .error "LLM 响应中未找到 JSON 对象"
    | some start =>
      let jsonText := extractJsonSlice t1 start
      match keepDict (parse jsonText) with
      | some v => .ok v
      | none =>
        match keepDict (parse (fixCommon jsonText)) with
        | some v => .ok v
        | none =>
          match keepDict (parse (try_fix_incomplete_json jsonText)) with
          | some v => .ok v
          | none =>
            match keepDict
                (parse (try_fix_incomplete_json (fixCommon jsonText))) with
            | some v => .ok v
            | none => .error "无法解析 LLM 响应的 JSON"

end OpenOii

namespace OpenOii

/-! ## Helper lemmas -/

/-- A wait loop in a quiet environment (no broadcast ever delivered, no
concurrent trigger) leaves the store unchanged and returns False. -/
theorem waitLoop_quiet (runId : Nat) (env : Nat → WaitIter)
    (henv : ∀ k, (env k).msg = false ∧ (env k).flagSet = false)
    (flags : List String) (hkey : confirmKey runId ∉ flags) :
    ∀ remaining k, waitLoop runId env remaining k flags = (false, flags) := by
  intro remaining
  induction remaining with
  | zero => intro k; rfl
  | succ n ih =>
    intro k
    simp only [waitLoop, (henv k).1, (henv k).2, if_neg hkey, ite_false,
      Bool.false_eq_true]
    exact ih (k + 1)

/-- Rewriting the delay sequence one step in at the front. -/
theorem doubleCap_succ_front (d : ℚ) (j : Nat) :
    doubleCap d (j + 1) = doubleCap (min (d * 2) 8) j := by
  induction j with
  | zero => rfl
  | succ j ih => rw [doubleCap, ih, doubleCap]

/-- Bookkeeping invariants of the retry loop: attempts made equal the start
attempt plus one plus the sleeps; at most `remaining` sleeps happen; every
sleep follows a retryable failure of the corresponding attempt; and the j-th
sleep is the doubled-and-capped delay sequence value. -/
theorem retryAttempts_spec (retryable : ε → Bool) (o : Nat → Except ε α) :
    ∀ (rem a : Nat) (d : ℚ),
      (retryAttempts retryable o rem a d).2.1 =
          a + 1 + (retryAttempts retryable o rem a d).2.2.length ∧
      (retryAttempts retryable o rem a d).2.2.length ≤ rem ∧
      (∀ j, j < (retryAttempts retryable o rem a d).2.2.length →
        ∃ e, o (a + j) = .error e ∧ retryable e = true) ∧
      (∀ j, j < (retryAttempts retryable o rem a d).2.2.length →
        (retryAttempts retryable o rem a d).2.2[j]? = some (doubleCap d j)) := by
  intro rem
  induction rem with
  | zero =>
    intro a d
    cases ho : o a with
    | error e => simp [retryAttempts, ho]
    | ok v => simp [retryAttempts, ho]
  | succ r ih =>
    intro a d
    cases ho : o a with
    | ok v => simp [retryAttempts, ho]
    | error e =>
      by_cases hr : retryable e = false
      · simp [retryAttempts, ho, hr]
      · have hrt : retryable e = true := by
          cases h : retryable e
          · exact absurd h hr
          · rfl
        obtain ⟨ih1, ih2, ih3, ih4⟩ := ih (a + 1) (min (d * 2) 8)
        have hstep : retryAttempts retryable o (r + 1) a d =
            ((retryAttempts retryable o r (a + 1) (min (d * 2) 8)).1,
             (retryAttempts retryable o r (a + 1) (min (d * 2) 8)).2.1,
             d :: (retryAttempts retryable o r (a + 1) (min (d * 2) 8)).2.2) := by
          simp [retryAttempts, ho, hrt]
        rw [hstep]
        simp only [List.length_cons]
        refine ⟨by omega, by omega, ?_, ?_⟩
        · intro j hj
          cases j with
          | zero => exact ⟨e, by simpa using ho, hrt⟩
          | succ j =>
            obtain ⟨e', he', hre'⟩ := ih3 j (by omega)
            have harith : a + (j + 1) = a + 1 + j := by omega
            exact ⟨e', by rw [harith]; exact he', hre'⟩
        · intro j hj
          cases j with
          | zero => simp [doubleCap]
          | succ j =>
            have := ih4 j (by omega)
            simpa [doubleCap_succ_front] using this

/-- A non-retryable failure at attempt `k`, preceded only by retryable
failures, propagates exactly at attempt `k` (so `k + 1` attempts total). -/
theorem retryAttempts_propagates (retryable : ε → Bool)
    (o : Nat → Except ε α) (k : Nat) (e : ε)
    (hk : o k = .error e) (hnr : retryable e = false) :
    ∀ (rem a : Nat) (d : ℚ), a ≤ k → k ≤ a + rem →
      (∀ j, a ≤ j → j < k → ∃ e', o j = .error e' ∧ retryable e' = true) →
      (retryAttempts retryable o rem a d).1 = .error e ∧
      (retryAttempts retryable o rem a d).2.1 = k + 1 := by
  intro rem
  induction rem with
  | zero =>
    intro a d hak hka _
    have ha : a = k := by omega
    subst ha
    simp [retryAttempts, hk]
  | succ r ih =>
    intro a d hak hka hpre
    by_cases hae : a = k
    · subst hae
      simp [retryAttempts, hk, hnr]
    · have ha : a < k := by omega
      obtain ⟨e', he', hre'⟩ := hpre a le_rfl ha
      have hstep : retryAttempts retryable o (r + 1) a d =
          ((retryAttempts retryable o r (a + 1) (min (d * 2) 8)).1,
           (retryAttempts retryable o r (a + 1) (min (d * 2) 8)).2.1,
           d :: (retryAttempts retryable o r (a + 1) (min (d * 2) 8)).2.2) := by
        simp [retryAttempts, he', hre']
      rw [hstep]
      exact ih (a + 1) (min (d * 2) 8) (by omega) (by omega)
        (fun j h1 h2 => hpre j (by omega) h2)

/-- Behaviour of the storyboard batch loop: every pending shot is processed,
the i-th output row is the i-th input row updated exactly when its own call
succeeded, the reported counts partition the batch, and an all-failure batch
reports zero successes while still completing. -/
theorem storyboardBatchLoop_spec (outcome : Nat → Except String String) :
    ∀ (pending : List BatchShot) (i0 : Nat),
      (storyboardBatchLoop outcome pending i0).1.length = pending.length ∧
      (∀ i, (storyboardBatchLoop outcome pending i0).1[i]? =
        (pending[i]?).map fun s =>
          match outcome (i0 + i) with
          | .ok url => { s with imageUrl := some url }
          | .error _ => s) ∧
      (storyboardBatchLoop outcome pending i0).2.1 +
        (storyboardBatchLoop outcome pending i0).2.2 = pending.length ∧
      ((∀ j, j < pending.length → exceptIsOk (outcome (i0 + j)) = false) →
        (storyboardBatchLoop outcome pending i0).2.1 = 0) := by
  intro pending
  induction pending with
  | nil =>
    intro i0
    refine ⟨rfl, ?_, rfl, fun _ => rfl⟩
    intro i
    simp [storyboardBatchLoop]
  | cons shot rest ih =>
    intro i0
    obtain ⟨ih1, ih2, ih3, ih4⟩ := ih (i0 + 1)
    cases ho : outcome i0 with
    | ok url =>
      simp only [storyboardBatchLoop, ho, List.length_cons]
      refine ⟨by omega, ?_, by omega, ?_⟩
      · intro i
        cases i with
        | zero => simp [ho]
        | succ i =>
          simp only [List.getElem?_cons_succ]
          have harith : i0 + (i + 1) = i0 + 1 + i := by omega
          simp only [harith]
          exact ih2 i
      · intro h
        have h0 := h 0 (by omega)
        simp [ho, exceptIsOk] at h0
    | error msg =>
      simp only [storyboardBatchLoop, ho, List.length_cons]
      refine ⟨by omega, ?_, by omega, ?_⟩
      · intro i
        cases i with
        | zero => simp [ho]
        | succ i =>
          simp only [List.getElem?_cons_succ]
          have harith : i0 + (i + 1) = i0 + 1 + i := by omega
          simp only [harith]
          exact ih2 i
      · intro h
        refine ih4 fun j hj => ?_
        have harith : i0 + 1 + j = i0 + (j + 1) := by omega
        rw [harith]
        exact h (j + 1) (by omega)

/-- Reducing the incremental storyboard-artist branch of the cleanup: the
branch dispatch is on string literals, so it computes. -/
theorem cleanup_storyboard_incremental_eq (fs : Fs) (db : Db) (pid : Nat) :
    cleanup_for_rerun fs db pid "storyboard_artist" "incremental" =
      (let r2 := clear_shot_images fs db pid
       let r3 := clear_shot_videos r2.1 r2.2 pid
       let r4 := clear_project_video r3.1 r3.2 pid
       .ok (r4.1, r4.2, false)) := rfl

/-- `_clear_project_video` never touches shot rows. -/
theorem clear_project_video_shots (fs : Fs) (db : Db) (pid : Nat) :
    (clear_project_video fs db pid).2.shots = db.shots := by
  unfold clear_project_video
  cases db.projects.find? (fun p => p.id == pid) <;> rfl

/-- The scene-id subquery only reads the scenes table. -/
theorem projectSceneIds_update_shots (db : Db) (x : List ShotRow) (pid : Nat) :
    projectSceneIds { db with shots := x } pid = projectSceneIds db pid := rfl

/-- A character of the stripped text was in the original text. -/
theorem mem_pyStrip {c : Char} {s : List Char} (h : c ∈ pyStrip s) :
    c ∈ s := by
  unfold pyStrip at h
  rw [List.mem_reverse] at h
  have h2 := (List.dropWhile_sublist _).subset h
  rw [List.mem_reverse] at h2
  exact (List.dropWhile_sublist _).subset h2

/-- A character of any line of the split was in the original text. -/
theorem mem_splitOnNl {c : Char} :
    ∀ {s : List Char} {l : List Char}, l ∈ splitOnNl s → c ∈ l → c ∈ s := by
  intro s
  induction s with
  | nil =>
    intro l hl hc
    simp only [splitOnNl, List.mem_singleton] at hl
    subst hl
    exact absurd hc (List.not_mem_nil c)
  | cons a rest ih =>
    intro l hl hc
    simp only [splitOnNl] at hl
    by_cases ha : a = '\n'
    · rw [if_pos ha, List.mem_cons] at hl
      rcases hl with rfl | hl
      · exact absurd hc (List.not_mem_nil c)
      · exact List.mem_cons_of_mem a (ih hl hc)
    · rw [if_neg ha] at hl
      rcases hr : splitOnNl rest with _ | ⟨h1, t1⟩
      · rw [hr] at hl
        dsimp only at hl
        rw [List.mem_singleton] at hl
        subst hl
        rw [List.mem_singleton] at hc
        subst hc
        exact List.mem_cons_self c rest
      · rw [hr] at hl
        dsimp only at hl
        rw [List.mem_cons] at hl
        have hh1 : h1 ∈ splitOnNl rest := by
          rw [hr]; exact List.mem_cons_self h1 t1
        rcases hl with rfl | hl
        · rw [List.mem_cons] at hc
          rcases hc with rfl | hc
          · exact List.mem_cons_self c rest
          · exact List.mem_cons_of_mem a (ih hh1 hc)
        · have hlr : l ∈ splitOnNl rest := by
            rw [hr]; exact List.mem_cons_of_mem h1 hl
          exact List.mem_cons_of_mem a (ih hlr hc)

/-- A character of the joined text is a newline or comes from some line. -/
theorem mem_joinNl {c : Char} :
    ∀ {ls : List (List Char)}, c ∈ joinNl ls →
      c = '\n' ∨ ∃ l ∈ ls, c ∈ l := by
  intro ls
  induction ls with
  | nil => intro h; exact absurd h (List.not_mem_nil c)
  | cons l rest ih =>
    intro h
    cases rest with
    | nil =>
      exact Or.inr ⟨l, List.mem_cons_self l [], by simpa [joinNl] using h⟩
    | cons l2 rest2 =>
      simp only [joinNl, List.mem_append, List.mem_cons] at h
      rcases h with h | h | h
      · exact Or.inr ⟨l, List.mem_cons_self l _, h⟩
      · exact Or.inl h
      · rcases ih h with h' | ⟨l', hl', hc'⟩
        · exact Or.inl h'
        · exact Or.inr ⟨l', List.mem_cons_of_mem l hl', hc'⟩

/-- A character surviving the code-fence removal is a newline or was in the
original text. -/
theorem mem_stripCodeFence {c : Char} {t : List Char}
    (h : c ∈ stripCodeFence t) : c = '\n' ∨ c ∈ t := by
  unfold stripCodeFence at h
  have h1 := mem_pyStrip h
  rcases mem_joinNl h1 with h2 | ⟨l, hl, hc⟩
  · exact Or.inl h2
  · refine Or.inr ?_
    have hl1 : ∀ {lines1 : List (List Char)},
        l ∈ (if !lines1.isEmpty &&
            pyStrip (lines1.getLastD []) == fenceChars then
          lines1.dropLast else lines1) → l ∈ lines1 := by
      intro lines1 hmem
      by_cases hif : (!lines1.isEmpty &&
          pyStrip (lines1.getLastD []) == fenceChars) = true
      · rw [if_pos hif] at hmem
        exact (List.dropLast_sublist lines1).subset hmem
      · rw [if_neg hif] at hmem
        exact hmem
    have hl2 := hl1 hl
    have hl3 : l ∈ splitOnNl t := by
      rcases hsp : splitOnNl t with _ | ⟨l0, rest⟩
      · rw [hsp] at hl2
        dsimp only at hl2
        exact absurd hl2 (List.not_mem_nil l)
      · rw [hsp] at hl2
        dsimp only at hl2
        by_cases hf : listBeginsWith fenceChars l0 = true
        · rw [if_pos hf] at hl2
          exact List.mem_cons_of_mem l0 hl2
        · rw [if_neg hf] at hl2
          exact hl2
    exact mem_splitOnNl hl3 hc

/-- A character of the pre-processed text is a newline or was in the input. -/
theorem mem_extractBase {c : Char} {t : List Char}
    (h : c ∈ extractBase t) : c = '\n' ∨ c ∈ t := by
  unfold extractBase at h
  by_cases hf : listBeginsWith fenceChars (pyStrip t) = true
  · rw [if_pos hf] at h
    rcases mem_stripCodeFence h with h' | h'
    · exact Or.inl h'
    · exact Or.inr (mem_pyStrip h')
  · rw [if_neg hf] at h
    exact Or.inr (mem_pyStrip h)

/-- Finding a character that is not present yields -1 (`none`). -/
theorem pyFindChar_eq_none {c : Char} {s : List Char} (h : c ∉ s) :
    pyFindChar c s = none := by
  unfold pyFindChar
  rw [List.findIdx?_eq_none_iff]
  intro x hx
  simp only [decide_eq_false_iff_not]
  exact fun he => h (he ▸ hx)

/-- A kept parse result is a dict. -/
theorem keepDict_obj {o : Option PyJson} {v : PyJson}
    (h : keepDict o = some v) : ∃ fields, v = PyJson.obj fields := by
  unfold keepDict at h
  split at h
  · next fields => exact ⟨fields, (Option.some.inj h).symm⟩
  · exact absurd h (by simp)

/-! ## Theorems for the claims -/

/-- C1 (code bug evaluation): an admission request made while an active run
already exists for the project is not rejected with 409; both routes insert a
second active `AgentRun`, leaving two active runs for the scope.  The
repository's own tests (`test_generate_project_conflict`,
`test_feedback_project_conflict`) assert a 409 response here. -/
theorem admission_creates_second_active_run :
    generate_project true
        [{ id := 1, projectId := 1, status := "running",
           currentAgent := some "orchestrator", progress := 0, error := none }]
        1 2 =
      .ok ([{ id := 1, projectId := 1, status := "running",
              currentAgent := some "orchestrator", progress := 0, error := none },
            { id := 2, projectId := 1, status := "running",
              currentAgent := some "orchestrator", progress := 0, error := none }],
           { id := 2, projectId := 1, status := "running",
             currentAgent := some "orchestrator", progress := 0, error := none }) ∧
    countActive
        [{ id := 1, projectId := 1, status := "running",
           currentAgent := some "orchestrator", progress := 0, error := none },
         { id := 2, projectId := 1, status := "running",
           currentAgent := some "orchestrator", progress := 0, error := none }] 1 = 2 ∧
    feedback_project true
        [{ id := 1, projectId := 1, status := "running",
           currentAgent := some "orchestrator", progress := 0, error := none }]
        1 2 =
      .ok ([{ id := 1, projectId := 1, status := "running",
              currentAgent := some "orchestrator", progress := 0, error := none },
            { id := 2, projectId := 1, status := "queued",
              currentAgent := some "review", progress := 0, error := none }], 2) ∧
    countActive
        [{ id := 1, projectId := 1, status := "running",
           currentAgent := some "orchestrator", progress := 0, error := none },
         { id := 2, projectId := 1, status := "queued",
           currentAgent := some "review", progress := 0, error := none }] 1 = 2 := by
  refine ⟨rfl, by decide, rfl, by decide⟩

/-- C9: the `init_db` sweep sends every run left at queued/running to
cancelled with the fixed "Service restarted" error marker, and leaves runs in
a terminal status unchanged. -/
theorem init_db_sweeps_stale_runs (runs : List AgentRunRec) (r : AgentRunRec)
    (i : Nat) (h : runs[i]? = some r) :
    (isActive r = true →
      (sweepStaleRuns runs)[i]? =
        some { r with status := "cancelled", error := some "Service restarted" }) ∧
    (isActive r = false → (sweepStaleRuns runs)[i]? = some r) := by
  constructor <;> intro ha <;>
    simp [sweepStaleRuns, List.getElem?_map, h, ha]

/-- Witness for C9: a concrete running run is swept to cancelled with the
marker, and a concrete succeeded run is left unchanged. -/
theorem init_db_sweeps_stale_runs_witness :
    (sweepStaleRuns
        [{ id := 1, projectId := 1, status := "running", currentAgent := none,
           progress := 0, error := none },
         { id := 2, projectId := 1, status := "succeeded", currentAgent := none,
           progress := 1, error := none }])[0]? =
      some { id := 1, projectId := 1, status := "cancelled", currentAgent := none,
             progress := 0, error := some "Service restarted" } ∧
    (sweepStaleRuns
        [{ id := 1, projectId := 1, status := "running", currentAgent := none,
           progress := 0, error := none },
         { id := 2, projectId := 1, status := "succeeded", currentAgent := none,
           progress := 1, error := none }])[1]? =
      some { id := 2, projectId := 1, status := "succeeded", currentAgent := none,
             progress := 1, error := none } :=
  ⟨(init_db_sweeps_stale_runs _ _ 0 rfl).1 (by decide),
   (init_db_sweeps_stale_runs _ _ 1 rfl).2 (by decide)⟩

/-- C6: the checkpoint wait returns False (a value, not an exception) when the
deadline elapses with no signal; with timeout 0 and no pending flag it returns
False immediately; and a durable flag already set when the wait starts is
consumed destructively and True returned, for every timeout value. -/
theorem await_signal_timeout_semantics (flags : List String)
    (runId timeout : Nat) (env : Nat → WaitIter) :
    (confirmKey runId ∉ flags →
      (∀ k, (env k).msg = false ∧ (env k).flagSet = false) →
      wait_for_confirm_redis flags runId timeout env = (false, flags)) ∧
    (confirmKey runId ∉ flags →
      wait_for_confirm_redis flags runId 0 env = (false, flags)) ∧
    (confirmKey runId ∈ flags →
      wait_for_confirm_redis flags runId timeout env =
        (true, redisDel flags (confirmKey runId))) := by
  refine ⟨fun hkey henv => ?_, fun hkey => ?_, fun hkey => ?_⟩
  · simp only [wait_for_confirm_redis, if_neg hkey]
    exact waitLoop_quiet runId env henv flags hkey timeout 0
  · simp only [wait_for_confirm_redis, if_neg hkey]
    rfl
  · simp only [wait_for_confirm_redis, if_pos hkey]

/-- Witness for C6 at concrete inputs: an empty store with timeout 3 and a
quiet environment times out to False; timeout 0 returns False immediately; a
pre-set flag is consumed and True returned with timeout 0. -/
theorem await_signal_timeout_semantics_witness :
    wait_for_confirm_redis [] 7 3 (fun _ => ⟨false, false⟩) = (false, []) ∧
    wait_for_confirm_redis [] 7 0 (fun _ => ⟨false, false⟩) = (false, []) ∧
    wait_for_confirm_redis [confirmKey 7] 7 0 (fun _ => ⟨false, false⟩) =
      (true, redisDel [confirmKey 7] (confirmKey 7)) :=
  ⟨(await_signal_timeout_semantics [] 7 3 _).1 (by decide) (fun _ => ⟨rfl, rfl⟩),
   (await_signal_timeout_semantics [] 7 0 _).2.1 (by decide),
   (await_signal_timeout_semantics [confirmKey 7] 7 0 _).2.2 (by decide)⟩

/-- C7: two signals before any wait leave exactly one durable flag set for the
run; the first wait consumes it destructively and returns True, restoring the
store; a subsequent wait with no new signal finds no flag and times out with
False. -/
theorem double_signal_single_consume (flags : List String) (runId t1 t2 : Nat)
    (env1 env2 : Nat → WaitIter)
    (hkey : confirmKey runId ∉ flags)
    (henv2 : ∀ k, (env2 k).msg = false ∧ (env2 k).flagSet = false) :
    ((trigger_confirm_redis ((trigger_confirm_redis flags runId).1) runId).1).count
        (confirmKey runId) = 1 ∧
    wait_for_confirm_redis
        ((trigger_confirm_redis ((trigger_confirm_redis flags runId).1) runId).1)
        runId t1 env1 = (true, flags) ∧
    wait_for_confirm_redis flags runId t2 env2 = (false, flags) := by
  have hs1 : (trigger_confirm_redis flags runId).1 =
      confirmKey runId :: flags := by
    simp [trigger_confirm_redis, redisSet, hkey]
  have hs2 : (trigger_confirm_redis ((trigger_confirm_redis flags runId).1) runId).1 =
      confirmKey runId :: flags := by
    rw [hs1]
    simp [trigger_confirm_redis, redisSet]
  have hne : ∀ a ∈ flags, a ≠ confirmKey runId := fun a ha he => hkey (he ▸ ha)
  have hdel : redisDel (confirmKey runId :: flags) (confirmKey runId) = flags := by
    simp only [redisDel, List.filter_cons]
    rw [if_neg (by simp)]
    rw [List.filter_eq_self.mpr]
    intro a ha
    simpa using hne a ha
  refine ⟨?_, ?_, ?_⟩
  · rw [hs2]
    simp [List.count_cons, List.count_eq_zero_of_not_mem hkey]
  · rw [hs2]
    simp only [wait_for_confirm_redis, List.mem_cons, true_or, if_pos, hdel]
  · simp only [wait_for_confirm_redis, if_neg hkey]
    exact waitLoop_quiet runId env2 henv2 flags hkey t2 0

/-- Witness for C7 at concrete inputs: from an empty store, two signals for
run 5 leave one flag; a wait with timeout 4 consumes it and returns True; a
second wait with timeout 2 and no new signal returns False. -/
theorem double_signal_single_consume_witness :
    ((trigger_confirm_redis ((trigger_confirm_redis [] 5).1) 5).1).count
        (confirmKey 5) = 1 ∧
    wait_for_confirm_redis ((trigger_confirm_redis ((trigger_confirm_redis [] 5).1) 5).1)
        5 4 (fun _ => ⟨false, false⟩) = (true, []) ∧
    wait_for_confirm_redis [] 5 2 (fun _ => ⟨false, false⟩) = (false, []) :=
  double_signal_single_consume [] 5 4 2 (fun _ => ⟨false, false⟩)
    (fun _ => ⟨false, false⟩) (by decide) (fun _ => ⟨rfl, rfl⟩)

/-- C5: with the default `max_retries = 3` the retry wrapper makes at most 4
attempts; every inter-attempt sleep follows a retryable failure of its own
attempt; a non-retryable error, preceded only by retryable failures,
propagates on the attempt that raised it; the sleeps follow the sequence
starting at 0.5 s that doubles and is capped at 8.0 s (a cap within the 8-16 s
band); and an error is retryable exactly when it is one of the three SDK
transport/rate-limit types or carries an HTTP status in
408/429/500/502/503/504 (the Doubao variant uses the same status set). -/
theorem llm_generate_retry_discipline (outcomes : Nat → Except LlmExc Unit) :
    (llm_generate is_retryable_error 3 outcomes).2.1 ≤ 4 ∧
    (∀ j, j < (llm_generate is_retryable_error 3 outcomes).2.2.length →
      ∃ e, outcomes j = .error e ∧ is_retryable_error e = true) ∧
    (∀ k e, outcomes k = .error e → is_retryable_error e = false → k ≤ 3 →
      (∀ j, j < k → ∃ e', outcomes j = .error e' ∧ is_retryable_error e' = true) →
      (llm_generate is_retryable_error 3 outcomes).1 = .error e ∧
      (llm_generate is_retryable_error 3 outcomes).2.1 = k + 1) ∧
    (∀ j, j < (llm_generate is_retryable_error 3 outcomes).2.2.length →
      (llm_generate is_retryable_error 3 outcomes).2.2[j]? =
        some (doubleCap (1 / 2) j)) ∧
    (doubleCap (1 / 2) 0 = 1 / 2 ∧
      (∀ j, doubleCap (1 / 2) (j + 1) = min (doubleCap (1 / 2) j * 2) 8) ∧
      (∀ d : ℚ, min (d * 2) 8 ≤ 8) ∧ (8 : ℚ) ≤ 16) ∧
    (∀ s, is_retryable_error (.statusError s) = true ↔
      (s = 408 ∨ s = 429 ∨ s = 500 ∨ s = 502 ∨ s = 503 ∨ s = 504)) ∧
    is_retryable_error .otherError = false ∧
    (∀ s, doubao_is_retryable_error (.httpStatusError s) = true ↔
      (s = 408 ∨ s = 429 ∨ s = 500 ∨ s = 502 ∨ s = 503 ∨ s = 504)) := by
  obtain ⟨h1, h2, h3, h4⟩ := retryAttempts_spec is_retryable_error outcomes 3 0 (1 / 2)
  refine ⟨?_, ?_, ?_, ?_, ?_, ?_, rfl, ?_⟩
  · show (retryAttempts is_retryable_error outcomes 3 0 (1 / 2)).2.1 ≤ 4
    omega
  · intro j hj
    simpa using h3 j hj
  · intro k e hk hnr hk3 hpre
    exact retryAttempts_propagates is_retryable_error outcomes k e hk hnr 3 0
      (1 / 2) (by omega) (by omega) (fun j _ h2' => hpre j h2')
  · exact h4
  · exact ⟨rfl, fun j => rfl, fun d => min_le_right _ _, by norm_num⟩
  · intro s
    simp only [is_retryable_error, Bool.or_eq_true, beq_iff_eq]
    tauto
  · intro s
    simp only [doubao_is_retryable_error, Bool.or_eq_true, beq_iff_eq]
    tauto

/-- Witness for C5: attempts 0 and 1 fail retryably (timeout, then HTTP 503),
attempt 2 raises a non-retryable error, which propagates after exactly 3
attempts. -/
theorem llm_generate_retry_discipline_witness :
    (llm_generate is_retryable_error 3
        (fun i => if i = 0 then .error .apiTimeoutError
          else if i = 1 then .error (.statusError 503)
          else .error .otherError) : Except LlmExc Unit × Nat × List ℚ).1 =
      .error .otherError ∧
    (llm_generate is_retryable_error 3
        (fun i => if i = 0 then .error .apiTimeoutError
          else if i = 1 then .error (.statusError 503)
          else .error .otherError) : Except LlmExc Unit × Nat × List ℚ).2.1 = 3 := by
  refine ⟨?_, ?_⟩
  · refine ((llm_generate_retry_discipline _).2.2.1 2 .otherError rfl rfl
      (by omega) ?_).1
    intro j hj
    match j, hj with
    | 0, _ => exact ⟨.apiTimeoutError, rfl, rfl⟩
    | 1, _ => exact ⟨.statusError 503, rfl, rfl⟩
  · refine ((llm_generate_retry_discipline _).2.2.1 2 .otherError rfl rfl
      (by omega) ?_).2
    intro j hj
    match j, hj with
    | 0, _ => exact ⟨.apiTimeoutError, rfl, rfl⟩
    | 1, _ => exact ⟨.statusError 503, rfl, rfl⟩

/-- C8: the storyboard batch loop processes every pending shot; the i-th
output row is the i-th input row with its asset populated exactly when its
own call succeeded, independently of sibling failures; the reported
(updated, failed) counts partition the batch; and a batch in which every call
fails still completes, reporting zero successes. -/
theorem storyboard_batch_partial_failure (pending : List BatchShot)
    (outcome : Nat → Except String String) :
    (storyboardBatchLoop outcome pending 0).1.length = pending.length ∧
    (∀ i, (storyboardBatchLoop outcome pending 0).1[i]? =
      (pending[i]?).map fun s =>
        match outcome i with
        | .ok url => { s with imageUrl := some url }
        | .error _ => s) ∧
    (storyboardBatchLoop outcome pending 0).2.1 +
      (storyboardBatchLoop outcome pending 0).2.2 = pending.length ∧
    ((∀ j, j < pending.length → exceptIsOk (outcome j) = false) →
      (storyboardBatchLoop outcome pending 0).2.1 = 0) := by
  obtain ⟨h1, h2, h3, h4⟩ := storyboardBatchLoop_spec outcome pending 0
  refine ⟨h1, ?_, h3, fun h => h4 (by simpa using h)⟩
  intro i
  simpa using h2 i

/-- C3 counterexample: with no feedback at all, the run trace begins
`("orchestrator", 0.01)` followed by `("onboarding", 0)`: a strict progress
decrease at a point where no feedback-driven re-plan happened. -/
theorem progress_dip_counterexample :
    (runTrace "onboarding" [])[0]? = some ("orchestrator", 1 / 100) ∧
    (runTrace "onboarding" [])[1]? = some ("onboarding", 0) ∧
    ¬ ((1 : ℚ) / 100 ≤ 0) := by
  refine ⟨rfl, ?_, by norm_num⟩
  show (stageEvents (planFrom "onboarding") [])[0]? = some ("onboarding", 0)
  have hplan : planFrom "onboarding" =
      ["onboarding", "director", "scriptwriter", "character_artist",
       "storyboard_artist", "video_generator", "video_merger"] := rfl
  rw [hplan]
  simp only [stageEvents, List.getElem?_map]
  rw [List.getElem?_range (by norm_num)]
  norm_num

/-- C3 amended: after stage i of the currently resolved plan starts, the
written pair is `(plan[i], i / max(len(plan), 1))`; the progress values of a
no-feedback segment are non-decreasing; a feedback decision after stage n
keeps the first n+1 stage events and continues with the new plan, whose
first event carries progress 0 (the reset); the one decrease not caused by
feedback is the initial 0.01 placeholder followed by stage 0's 0, exhibited
by the counterexample. -/
theorem stage_progress_invariant (plan p2 : List String)
    (fbs : List (Nat × String)) (n i : Nat) (a : String) :
    (i < plan.length →
      (stageEvents plan [])[i]? =
        some (plan.getD i "", (i : ℚ) / ((max plan.length 1 : Nat) : ℚ))) ∧
    List.Chain' (fun p q => p.2 ≤ q.2) (stageEvents plan []) ∧
    (n + 1 < plan.length → i ≤ n →
      (stageEvents plan ((n, a) :: fbs))[i]? =
        some (plan.getD i "", (i : ℚ) / ((max plan.length 1 : Nat) : ℚ))) ∧
    (n + 1 < plan.length →
      (stageEvents plan ((n, a) :: fbs))[n + 1]? =
        (stageEvents (planFrom a) fbs)[0]?) ∧
    (0 < p2.length →
      (stageEvents p2 fbs)[0]? = some (p2.getD 0 "", 0)) := by
  have hev : ∀ (q : List String) (m j : Nat), j < m →
      ((List.range m).map fun k =>
        ((q.getD k "", (k : ℚ) / ((max q.length 1 : Nat) : ℚ)) : String × ℚ))[j]? =
        some (q.getD j "", (j : ℚ) / ((max q.length 1 : Nat) : ℚ)) := by
    intro q m j hj
    rw [List.getElem?_map, List.getElem?_range hj]
    rfl
  refine ⟨fun hi => ?_, ?_, fun hn hi => ?_, fun hn => ?_, fun hp => ?_⟩
  · simpa only [stageEvents] using hev plan plan.length i hi
  · simp only [stageEvents]
    apply List.Pairwise.chain'
    rw [List.pairwise_map]
    refine (List.pairwise_le_range plan.length).imp ?_
    intro k j hkj
    have hM : (0 : ℚ) < ((max plan.length 1 : Nat) : ℚ) := by
      have h1 : 0 < max plan.length 1 := by omega
      exact_mod_cast h1
    have hkj' : ((k : ℚ)) ≤ ((j : Nat) : ℚ) := by exact_mod_cast hkj
    exact (div_le_div_iff_of_pos_right hM).mpr hkj'
  · simp only [stageEvents, if_pos hn]
    rw [List.getElem?_append]
    have hlt : i < ((List.range (n + 1)).map fun k =>
        ((plan.getD k "", (k : ℚ) / ((max plan.length 1 : Nat) : ℚ)) :
          String × ℚ)).length := by
      simp
      omega
    rw [if_pos hlt]
    exact hev plan (n + 1) i (by omega)
  · simp only [stageEvents, if_pos hn]
    rw [List.getElem?_append_right (by simp)]
    simp
  · match fbs with
    | [] =>
      simp only [stageEvents]
      rw [hev p2 p2.length 0 hp]
      norm_num
    | (n', a') :: rest =>
      simp only [stageEvents]
      by_cases h : n' + 1 < p2.length
      · rw [if_pos h, List.getElem?_append]
        have hlt : 0 < ((List.range (n' + 1)).map fun k =>
            ((p2.getD k "", (k : ℚ) / ((max p2.length 1 : Nat) : ℚ)) :
              String × ℚ)).length := by
          simp
        rw [if_pos hlt, hev p2 (n' + 1) 0 (by omega)]
        norm_num
      · rw [if_neg h, hev p2 p2.length 0 hp]
        norm_num

/-- Witness for C3 (amended) at concrete inputs: in the 7-stage plan from
`onboarding`, stage 1's event is `("director", 1/7)`; after feedback at
stage 1 routed to `scriptwriter`, the next event is stage 0 of the new
5-stage plan with progress reset to 0. -/
theorem stage_progress_invariant_witness :
    (stageEvents (planFrom "onboarding") [])[1]? = some ("director", 1 / 7) ∧
    (stageEvents (planFrom "onboarding") [(1, "scriptwriter")])[2]? =
      some ("scriptwriter", 0) := by
  constructor
  · have h := (stage_progress_invariant (planFrom "onboarding")
      (planFrom "onboarding") [] 0 1 "scriptwriter").1 (by decide)
    rw [h]
    have hmax : (max (planFrom "onboarding").length 1) = 7 := by
      have hlen : (planFrom "onboarding").length = 7 := rfl
      omega
    rw [show (planFrom "onboarding").getD 1 "" = "director" from rfl, hmax]
    norm_num
  · have h4 := (stage_progress_invariant (planFrom "onboarding")
      (planFrom "onboarding") [] 1 0 "scriptwriter").2.2.2.1 (by decide)
    have h5 := (stage_progress_invariant (planFrom "scriptwriter")
      (planFrom "scriptwriter") [] 1 0 "scriptwriter").2.2.2.2 (by decide)
    rw [h4, h5]
    rfl

/-- C2 counterexample, at Scenario B's input: existing shots 1, 2, 3 with
populated image assets, preserve set containing only shot 2, incremental
re-plan routed to `storyboard_artist`.  Contrary to the claim, shot 2 is not
left untouched (its asset field is cleared and its asset file purged along
with everyone else's), and shots 1 and 3 are not deleted (all three rows
survive).  `_cleanup_for_rerun` takes no preserve-set input at all. -/
theorem incremental_replan_preserve_set_counterexample :
    scenarioDb.shots.map (fun s => s.imageUrl) =
      [some "/static/frames/f1.png", some "/static/frames/f2.png",
       some "/static/frames/f3.png"] ∧
    cleanupShots
        (cleanup_for_rerun scenarioFs scenarioDb 1 "storyboard_artist"
          "incremental") =
      some [⟨1, 10, none, none⟩, ⟨2, 10, none, none⟩, ⟨3, 10, none, none⟩] ∧
    cleanupFiles
        (cleanup_for_rerun scenarioFs scenarioDb 1 "storyboard_artist"
          "incremental") = some [] :=
  ⟨rfl, rfl, rfl⟩

/-- C2 amended: an incremental re-plan routed to `storyboard_artist` deletes
no shot rows and consults no preserve set; instead every shot of the project
(preserved target ids included) has its image and video asset fields
cleared, with the corresponding asset-file purge attempted on each. -/
theorem incremental_replan_clears_all_downstream (fs : Fs) (db : Db)
    (pid : Nat) :
    cleanupShots (cleanup_for_rerun fs db pid "storyboard_artist" "incremental") =
      some (db.shots.map fun s =>
        if (projectSceneIds db pid).contains s.sceneId then
          { s with imageUrl := none, videoUrl := none }
        else s) := by
  rw [cleanup_storyboard_incremental_eq]
  simp only [cleanupShots]
  rw [clear_project_video_shots]
  simp only [clear_shot_videos, clear_shot_images, projectSceneIds_update_shots,
    List.map_map]
  refine congrArg some (List.map_congr_left fun s _ => ?_)
  by_cases h : s.sceneId ∈ projectSceneIds db pid <;>
    simp [Function.comp, h]

/-- C4 counterexample: the full-mode structural cleanup (re-run from
`scriptwriter`) deletes all three shot rows even though each carries a
populated image asset, and purges none of their asset files — every file is
still present afterwards. -/
theorem full_cleanup_deletes_rows_without_purge :
    scenarioDb.shots.map (fun s => s.imageUrl) =
      [some "/static/frames/f1.png", some "/static/frames/f2.png",
       some "/static/frames/f3.png"] ∧
    cleanupShots (cleanup_for_rerun scenarioFs scenarioDb 1 "scriptwriter" "full") =
      some [] ∧
    cleanupFiles (cleanup_for_rerun scenarioFs scenarioDb 1 "scriptwriter" "full") =
      some ["STATIC_DIR/frames/f1.png", "STATIC_DIR/frames/f2.png",
            "STATIC_DIR/frames/f3.png"] :=
  ⟨rfl, rfl, rfl⟩

/-- C4 amended: `delete_file` is a best-effort purge — an absent file is a
no-op returning False, a failed `os.remove` is logged and returns False with
the filesystem unchanged (no exception propagates), a present file is
removed with True returned, and a null URL is a no-op; and the asset-field
clearing of `_clear_shot_images` proceeds to null every URL regardless of
what the file deletions did.  (The row-deleting cleanup paths, by the
counterexample, purge nothing.) -/
theorem delete_file_best_effort (fs : Fs) (u p : String)
    (h : get_local_path u = some p) :
    (p ∉ fs.files → delete_file fs (some u) = (fs, false)) ∧
    (p ∈ fs.files → fs.removeOk p = false →
      delete_file fs (some u) = (fs, false)) ∧
    (p ∈ fs.files → fs.removeOk p = true →
      delete_file fs (some u) =
        ({ fs with files := fs.files.filter (fun q => q ≠ p) }, true)) ∧
    delete_file fs none = (fs, false) ∧
    (∀ db pid, (clear_shot_images fs db pid).2.shots =
      db.shots.map fun s =>
        if (projectSceneIds db pid).contains s.sceneId then
          { s with imageUrl := none }
        else s) := by
  have hu : (u == "") = false := by
    cases he : u == "" with
    | false => rfl
    | true =>
      rw [get_local_path] at h
      simp only [is_local_file, he] at h
      simp at h
  refine ⟨fun hmem => ?_, fun hmem hrm => ?_, fun hmem hrm => ?_, rfl,
    fun db pid => rfl⟩
  · simp [delete_file, hu, h, hmem]
  · simp [delete_file, hu, h, hmem, hrm]
  · simp [delete_file, hu, h, hmem, hrm]

/-- Witness for C4 at concrete inputs: for the local URL
`/static/frames/f1.png`, deleting with the file absent is a no-op returning
False; with the file present but `os.remove` failing it returns False and
leaves the file; with removal succeeding the file is gone and True is
returned. -/
theorem delete_file_best_effort_witness :
    delete_file { files := [], removeOk := fun _ => true }
        (some "/static/frames/f1.png") =
      ({ files := [], removeOk := fun _ => true }, false) ∧
    delete_file { files := ["STATIC_DIR/frames/f1.png"], removeOk := fun _ => false }
        (some "/static/frames/f1.png") =
      ({ files := ["STATIC_DIR/frames/f1.png"], removeOk := fun _ => false }, false) ∧
    delete_file { files := ["STATIC_DIR/frames/f1.png"], removeOk := fun _ => true }
        (some "/static/frames/f1.png") =
      ({ files := ["STATIC_DIR/frames/f1.png"].filter
          (fun q => q ≠ "STATIC_DIR/frames/f1.png"), removeOk := fun _ => true },
        true) :=
  ⟨(delete_file_best_effort { files := [], removeOk := fun _ => true }
      "/static/frames/f1.png" "STATIC_DIR/frames/f1.png" rfl).1 (by simp),
   (delete_file_best_effort
      { files := ["STATIC_DIR/frames/f1.png"], removeOk := fun _ => false }
      "/static/frames/f1.png" "STATIC_DIR/frames/f1.png" rfl).2.1
      (by simp) rfl,
   (delete_file_best_effort
      { files := ["STATIC_DIR/frames/f1.png"], removeOk := fun _ => true }
      "/static/frames/f1.png" "STATIC_DIR/frames/f1.png" rfl).2.2.1
      (by simp) rfl⟩

/-- Witness for C8, Scenario C shape: in a 5-shot batch whose third call
raises, the other four shots get populated assets and the batch completes
reporting 4 successes and 1 failure; and a 2-shot batch in which every call
fails reports 0 successes. -/
theorem storyboard_batch_partial_failure_witness :
    (storyboardBatchLoop
        (fun i => if i = 2 then .error "image generation failed"
          else .ok "/static/images/frame.png")
        [⟨1, 1, none⟩, ⟨2, 2, none⟩, ⟨3, 3, none⟩, ⟨4, 4, none⟩, ⟨5, 5, none⟩]
        0).1 =
      [⟨1, 1, some "/static/images/frame.png"⟩,
       ⟨2, 2, some "/static/images/frame.png"⟩,
       ⟨3, 3, none⟩,
       ⟨4, 4, some "/static/images/frame.png"⟩,
       ⟨5, 5, some "/static/images/frame.png"⟩] ∧
    (storyboardBatchLoop
        (fun i => if i = 2 then .error "image generation failed"
          else .ok "/static/images/frame.png")
        [⟨1, 1, none⟩, ⟨2, 2, none⟩, ⟨3, 3, none⟩, ⟨4, 4, none⟩, ⟨5, 5, none⟩]
        0).2 = (4, 1) ∧
    (storyboardBatchLoop (fun _ => .error "boom")
        [⟨1, 1, none⟩, ⟨2, 2, none⟩] 0).2.1 = 0 := by
  refine ⟨rfl, rfl, ?_⟩
  exact (storyboard_batch_partial_failure [⟨1, 1, none⟩, ⟨2, 2, none⟩]
    (fun _ => .error "boom")).2.2.2 (fun j _ => rfl)

/-- C10: for every input string, `extract_json` either returns a parsed
dict or raises ValueError, never a non-dict value; and an input containing
no opening brace raises ValueError even when it is valid JSON of another
type.  The hypothesis on `parse` states the one fact used about
`json.loads`: a text parsing to a JSON object contains an opening brace. -/
theorem extract_json_dict_or_valueerror (parse : List Char → Option PyJson)
    (fixCommon : List Char → List Char) (text : List Char) :
    ((∃ fields, extract_json parse fixCommon text = .ok (.obj fields)) ∨
      (∃ msg, extract_json parse fixCommon text = .error msg)) ∧
    ((∀ s fields, parse s = some (.obj fields) → braceOpenChar ∈ s) →
      braceOpenChar ∉ text →
      ∃ msg, extract_json parse fixCommon text = .error msg) := by
  constructor
  · unfold extract_json
    rcases h1 : keepDict (parse (extractBase text)) with _ | v1
    · simp only [h1]
      rcases h2 : pyFindChar braceOpenChar (extractBase text) with _ | start
      · simp only [h2]
        exact Or.inr ⟨_, rfl⟩
      · simp only [h2]
        rcases h3 : keepDict (parse (extractJsonSlice (extractBase text) start))
          with _ | v3
        · simp only [h3]
          rcases h4 : keepDict
              (parse (fixCommon (extractJsonSlice (extractBase text) start)))
            with _ | v4
          · simp only [h4]
            rcases h5 : keepDict (parse (try_fix_incomplete_json
                (extractJsonSlice (extractBase text) start))) with _ | v5
            · simp only [h5]
              rcases h6 : keepDict (parse (try_fix_incomplete_json (fixCommon
                  (extractJsonSlice (extractBase text) start)))) with _ | v6
              · simp only [h6]
                exact Or.inr ⟨_, rfl⟩
              · simp only [h6]
                obtain ⟨fields, rfl⟩ := keepDict_obj h6
                exact Or.inl ⟨fields, rfl⟩
            · simp only [h5]
              obtain ⟨fields, rfl⟩ := keepDict_obj h5
              exact Or.inl ⟨fields, rfl⟩
          · simp only [h4]
            obtain ⟨fields, rfl⟩ := keepDict_obj h4
            exact Or.inl ⟨fields, rfl⟩
        · simp only [h3]
          obtain ⟨fields, rfl⟩ := keepDict_obj h3
          exact Or.inl ⟨fields, rfl⟩
    · simp only [h1]
      obtain ⟨fields, rfl⟩ := keepDict_obj h1
      exact Or.inl ⟨fields, rfl⟩
  · intro hparse hbrace
    have hb1 : braceOpenChar ∉ extractBase text := by
      intro hc
      rcases mem_extractBase hc with h' | h'
      · exact absurd h' (by decide)
      · exact hbrace h'
    have h1 : keepDict (parse (extractBase text)) = none := by
      rcases hp : parse (extractBase text) with _ | v
      · rfl
      · rcases v with fields | items | s | n | b | _
        · exact absurd (hparse _ _ hp) hb1
        all_goals rfl
    have h2 : pyFindChar braceOpenChar (extractBase text) = none :=
      pyFindChar_eq_none hb1
    unfold extract_json
    simp only [h1, h2]
    exact ⟨_, rfl⟩

/-- Witness for C10: the input `[1, 2, 3]` is valid JSON of a non-dict type
(the parser produces the array) and contains no opening brace, and
`extract_json` raises ValueError rather than returning the array. -/
theorem extract_json_dict_or_valueerror_witness :
    exceptIsOk (extract_json
      (fun s => if s == "[1, 2, 3]".toList
        then some (.arr [.num 1, .num 2, .num 3]) else none)
      (fun x => x) ("[1, 2, 3]".toList)) = false := by
  have hp : ∀ s fields,
      (fun s => if s == "[1, 2, 3]".toList
        then some (PyJson.arr [.num 1, .num 2, .num 3]) else none) s =
        some (PyJson.obj fields) → braceOpenChar ∈ s := by
    intro s fields hps
    simp only at hps
    split at hps
    · exact absurd hps (by simp)
    · exact absurd hps (by simp)
  have hb : braceOpenChar ∉ "[1, 2, 3]".toList := by decide
  obtain ⟨msg, h⟩ := (extract_json_dict_or_valueerror
      (fun s => if s == "[1, 2, 3]".toList
        then some (.arr [.num 1, .num 2, .num 3]) else none)
      (fun x => x) ("[1, 2, 3]".toList)).2 hp hb
  rw [h]
  rfl

end OpenOii
